import Mathlib

/-!
Verification development for the CS125-MP rhythm game core
(CS125-RhythmGame: game/hit_detection.py, game/arrow_spawner.py,
game/pattern_manager.py, game/game.py, game/outline_manager.py,
game/constants.py, Sprites/tiles.py).

The Python code is shallowly embedded: pygame rectangles become integer
rectangles, wall-clock / elapsed seconds become rationals, pygame sprite
groups become lists, and each mutating method becomes a function from the
old state to the new state.  Presentation-only state (feedback text colour,
feedback timers, sprite surfaces) is not represented because no verified
property mentions it.
-/

namespace RhythmGame

/-! ### Constants (game/constants.py) -/

def WINDOW_WIDTH : Int := 1600
def WINDOW_HEIGHT : Int := 900

/-- Perfect hit window (pixels of vertical centre distance). -/
def HIT_MARGIN_PERFECT : Int := 20
/-- Good hit window. -/
def HIT_MARGIN_GOOD : Int := 65
/-- Late/Early hit window. -/
def HIT_MARGIN_LATE : Int := 100

def SCORE_PERFECT : Nat := 100
def SCORE_GOOD : Nat := 50
def SCORE_LATE : Nat := 25
def SCORE_MISS : Nat := 0

/-- Spawn lookahead window in seconds (`SPAWN_WINDOW = 1.55`). -/
def SPAWN_WINDOW : ℚ := 1.55

def HIT_ZONE_EDGE_DISTANCE : Int := 150

/-! ### pygame-style rectangles

A pygame `Rect` stores integer `left`, `top`, `width`, `height`;
`right = left + w`, `bottom = top + h`, `centery = top + h // 2`
(Python floor division; for the nonnegative heights used by sprites this
agrees with `Int` division). -/

structure Rect where
  left : Int
  top : Int
  w : Int
  h : Int
deriving DecidableEq, Repr

def Rect.right (r : Rect) : Int := r.left + r.w

def Rect.bottom (r : Rect) : Int := r.top + r.h

def Rect.centery (r : Rect) : Int := r.top + r.h / 2

/-! ### Judgment engine data (game/hit_detection.py) -/

/-- The five judgment labels used by `HitDetector` (`hit_type` strings
"Perfect" / "Good" / "Late" / "Early" / "Miss" in the source). -/
inductive HitType where
  | Perfect
  | Good
  | Late
  | Early
  | Miss
deriving DecidableEq, Repr

/-- An active arrow sprite (`Tiles` in Sprites/tiles.py): its lane key and
its hitbox rectangle (the 80%-scaled rectangle centred on the sprite). -/
structure Note where
  key : Char
  hitbox : Rect
deriving DecidableEq, Repr

/-- A hit-zone outline sprite (`Outline` in game/outline_manager.py): its
lane key and its full sprite rectangle. -/
structure Outline where
  key : Char
  rect : Rect
deriving DecidableEq, Repr

/-- `HitDetector` mutable state.  `last_key_press_time` is the per-key
dictionary of the last accepted press time (seconds); an absent key is
`none`.  Feedback text/colour/timer fields are presentation-only and
omitted; `hit_type` is kept as a `HitType`. -/
structure HitDetector where
  score : Nat
  hit_type : HitType
  combo : Nat
  max_combo : Nat
  misses : Nat
  last_key_press_time : Char → Option ℚ

/-- Fresh `HitDetector.__init__` state. -/
def HitDetector.init : HitDetector :=
  { score := 0
    hit_type := .Miss
    combo := 0
    max_combo := 0
    misses := 0
    last_key_press_time := fun _ => none }

/-- `key_cooldown = 0.05` seconds. -/
def key_cooldown : ℚ := 0.05

/-- `HitDetector.get_combo_multiplier`. -/
def get_combo_multiplier (d : HitDetector) : Nat :=
  if d.combo ≥ 300 then 4
  else if d.combo ≥ 200 then 3
  else if d.combo ≥ 100 then 2
  else 1

/-- `HitDetector.apply_score`. -/
def apply_score (d : HitDetector) (base_score : Nat) : Nat :=
  base_score * get_combo_multiplier d

/-- `HitDetector._handle_hit` (state part): add the multiplied score using
the combo value before the increment, increment the combo, fold the new
combo into `max_combo`, and remove the judged arrow from the active group
if it is still a member. -/
def handle_hit (d : HitDetector) (hit_type : HitType) (base_score : Nat)
    (arrow_group : List Note) (arrow : Note) : HitDetector × List Note :=
  let d' : HitDetector :=
    { d with
      hit_type := hit_type
      score := d.score + apply_score d base_score
      combo := d.combo + 1 }
  let d'' : HitDetector := { d' with max_combo := max d'.max_combo d'.combo }
  (d'', if arrow ∈ arrow_group then arrow_group.erase arrow else arrow_group)

/-- `HitDetector._handle_miss`: reset the combo, count the miss, add the
(zero) miss score. -/
def handle_miss (d : HitDetector) : HitDetector :=
  { d with
    combo := 0
    hit_type := .Miss
    score := d.score + SCORE_MISS
    misses := d.misses + 1 }

/-- The timing-classification part of `HitDetector.check_hit`
(lines 126-158): horizontal-overlap gate, vertical-overlap gate, then the
centre-distance windows.  Returns the judgment label and its base score. -/
def classify_arrow (hitbox rect : Rect) : HitType × Nat :=
  if ¬ (hitbox.right ≥ rect.left ∧ hitbox.left ≤ rect.right) then
    (.Miss, SCORE_MISS)
  else if min hitbox.bottom rect.bottom - max hitbox.top rect.top ≤ 0 then
    (.Miss, SCORE_MISS)
  else if |hitbox.centery - rect.centery| ≤ HIT_MARGIN_PERFECT then
    (.Perfect, SCORE_PERFECT)
  else if |hitbox.centery - rect.centery| ≤ HIT_MARGIN_GOOD then
    (.Good, SCORE_GOOD)
  else if (hitbox.bottom ≥ rect.top ∧ hitbox.top ≤ rect.bottom) ∧
      |hitbox.centery - rect.centery| ≤ HIT_MARGIN_LATE then
    (if hitbox.centery > rect.centery then .Late else .Early, SCORE_LATE)
  else (.Miss, SCORE_MISS)

/-- The candidate-selection step of `check_hit`: the arrows are sorted by
`|hitbox.centery - outline.rect.centery|` (a stable sort) and the first is
taken, i.e. the earliest arrow attaining the minimal distance. -/
def closest_arrow (o : Outline) (a : Note) (rest : List Note) : Note :=
  rest.foldl
    (fun acc b =>
      if |b.hitbox.centery - o.rect.centery| <
          |acc.hitbox.centery - o.rect.centery| then b else acc)
    a

/-- The debounce test at the top of `check_hit`: the press is dropped when
the key has a recorded last press and less than `key_cooldown` seconds have
passed since it. -/
def on_cooldown (d : HitDetector) (key : Char) (current_time : ℚ) : Bool :=
  match d.last_key_press_time key with
  | some t => decide (current_time - t < key_cooldown)
  | none => false

/-- `self.last_key_press_time[key] = current_time`. -/
def press_update (d : HitDetector) (key : Char) (current_time : ℚ) :
    HitDetector :=
  { d with
    last_key_press_time := fun k =>
      if k = key then some current_time else d.last_key_press_time k }

/-- The part of `check_hit` after the debounce (candidate selection, the
two overlap gates and the window classification folded into
`classify_arrow`, then `_handle_hit` / `_handle_miss`).  Returns the new
detector state, the new arrow group and the emitted judgment. -/
def check_hit_core (d : HitDetector) (key : Char) (arrow_group : List Note)
    (outline_group : List Outline) : HitDetector × List Note × Option HitType :=
  match arrow_group.filter (fun a => a.key = key) with
  | [] => (handle_miss d, arrow_group, some .Miss)
  | a :: rest =>
    match outline_group.find? (fun o => o.key = key) with
    | none => (handle_miss d, arrow_group, some .Miss)
    | some outline_sprite =>
      match classify_arrow (closest_arrow outline_sprite a rest).hitbox
          outline_sprite.rect with
      | (.Miss, _) => (handle_miss d, arrow_group, some .Miss)
      | (ht, base) =>
        ((handle_hit d ht base arrow_group (closest_arrow outline_sprite a rest)).1,
         (handle_hit d ht base arrow_group (closest_arrow outline_sprite a rest)).2,
         some ht)

/-- `HitDetector.check_hit`: debounce, then `check_hit_core` on the state
with the press time recorded (`current_time` is only read by the debounce).
The judgment component is `none` exactly when the press was dropped by the
cooldown. -/
def check_hit (d : HitDetector) (key : Char) (arrow_group : List Note)
    (outline_group : List Outline) (current_time : ℚ) :
    HitDetector × List Note × Option HitType :=
  if on_cooldown d key current_time then (d, arrow_group, none)
  else check_hit_core (press_update d key current_time) key arrow_group outline_group

/-! ### Combo iteration

Feeding consecutive Perfect judgments through `_handle_hit` (the hit path
of `check_hit` with an always-Perfect arrow). -/

/-- A dummy judged arrow for score-machine iteration. -/
def dummy_note : Note := { key := 'd', hitbox := { left := 0, top := 0, w := 0, h := 0 } }

/-- Apply `n` consecutive Perfect judgments to the detector state. -/
def feed_perfects : Nat → HitDetector → HitDetector
  | 0, d => d
  | n + 1, d => feed_perfects n (handle_hit d .Perfect SCORE_PERFECT [] dummy_note).1

/-! ### Spawn scheduler (game/arrow_spawner.py, CSV branch)

`ArrowSpawner.spawn_arrow` in fixed-track (CSV) mode: the spawn queue is a
FIFO of timestamps; only the head is examined each call; the head is popped
and its lanes spawned exactly when `0 ≤ head − now ≤ SPAWN_WINDOW`.
`timestamp_key_dict` maps a popped timestamp to its validated lane list;
`has_sprite` models `get_sprite key ≠ None` (a lane whose sprite is missing
is skipped with an error message).  Spawned notes are modelled by their lane
keys appended to the active group; their start geometry (top = −100 or
bottom = WINDOW_HEIGHT + 100 depending on gravity) is irrelevant to the
verified properties and omitted. -/

structure ArrowSpawner where
  spawn_queue : List ℚ
  timestamp_key_dict : ℚ → List Char
  spawning_allowed : Bool
  has_sprite : Char → Bool

/-- `ArrowSpawner.spawn_arrow` (fixed-track branch, lines 129-156). -/
def spawn_arrow (s : ArrowSpawner) (current_time : ℚ) (arrow_group : List Char) :
    ArrowSpawner × List Char :=
  if ¬ s.spawning_allowed then (s, arrow_group)
  else
    match s.spawn_queue with
    | [] => (s, arrow_group)
    | item :: rest =>
      if 0 ≤ item - current_time ∧ item - current_time ≤ SPAWN_WINDOW then
        ({ s with spawn_queue := rest },
          arrow_group ++ (s.timestamp_key_dict item).filter s.has_sprite)
      else (s, arrow_group)

/-- Run the spawner over a sequence of tick times (one `spawn_arrow` call
per tick, as `Game.update` does). -/
def run_spawner : List ℚ → ArrowSpawner → List Char → ArrowSpawner × List Char
  | [], s, g => (s, g)
  | t :: ts, s, g =>
    run_spawner ts (spawn_arrow s t g).1 (spawn_arrow s t g).2

/-! ### Procedural pattern pools (game/pattern_manager.py) -/

/-- `PatternManager.pattern_pools['easy']`: lane subsets. -/
def easy_pool : List (List Char) :=
  [['d'], ['f'], ['j'], ['k'], ['f', 'j'], ['d', 'k'], ['d', 'f', 'j'],
    ['d', 'f', 'j', 'k']]

/-- `PatternManager.pattern_pools['easy']`: weights
`[0.2, 0.2, 0.2, 0.2, 0.08, 0.08, 0.01, 0.01]`. -/
def easy_weights : List ℚ := [0.2, 0.2, 0.2, 0.2, 0.08, 0.08, 0.01, 0.01]

/-- `PatternManager.pattern_pools['medium']`: lane subsets. -/
def medium_pool : List (List Char) :=
  [['d'], ['f'], ['j'], ['k'], ['d', 'f'], ['j', 'k'], ['d', 'f', 'j'],
    ['f', 'j', 'k'], ['d', 'f', 'j', 'k']]

/-- `PatternManager.pattern_pools['medium']`: weights
`[0.18, 0.18, 0.18, 0.18, 0.09, 0.09, 0.04, 0.04, 0.02]`. -/
def medium_weights : List ℚ := [0.18, 0.18, 0.18, 0.18, 0.09, 0.09, 0.04, 0.04, 0.02]

/-- `PatternManager.pattern_pools['hard']`: lane subsets. -/
def hard_pool : List (List Char) :=
  [['d'], ['f'], ['j'], ['k'], ['d', 'f'], ['j', 'k'], ['d', 'f', 'j'],
    ['f', 'j', 'k'], ['d', 'f', 'j', 'k'], ['d', 'd', 'f', 'f'],
    ['j', 'j', 'k', 'k']]

/-- `PatternManager.pattern_pools['hard']`: weights
`[0.12, 0.12, 0.12, 0.12, 0.10, 0.10, 0.08, 0.08, 0.06, 0.05, 0.05]`. -/
def hard_weights : List ℚ := [0.12, 0.12, 0.12, 0.12, 0.10, 0.10, 0.08, 0.08, 0.06, 0.05, 0.05]

/-! ### Hard-mode shuffle (game/arrow_spawner.py, `add_timestamps`)

In hard difficulty `add_timestamps` collects the whole `key` column of the
CSV, shuffles it in place (`random.shuffle`, i.e. applies a uniformly random
permutation of positions), and writes it back, leaving the `timestamp`
column untouched.  The random permutation is modelled by an arbitrary
`Equiv.Perm` over row indices. -/

structure CsvRow where
  timestamp : ℚ
  key : String
deriving DecidableEq

/-- The hard-mode shuffle transform: row `i` keeps its timestamp and
receives the key of row `σ i`. -/
def hard_shuffle (rows : List CsvRow) (σ : Equiv.Perm (Fin rows.length)) :
    List CsvRow :=
  List.ofFn fun i =>
    { timestamp := (rows.get i).timestamp, key := (rows.get (σ i)).key }

/-! ### Gravity-flip mode controller (game/game.py)

`Game.check_gravity_switch` / `Game.schedule_next_gravity_switch`.  Time is
`pygame.time.get_ticks()` milliseconds, modelled as a rational passed in per
tick; the `random.uniform(15.0, 30.0)` draw is an input `dur` (seconds).
Hit-zone repositioning (`OutlineManager.update_outline_positions`) is
embedded exactly: gravity mode puts an outline's `y` at
`HIT_ZONE_EDGE_DISTANCE − height`, normal mode at
`WINDOW_HEIGHT − HIT_ZONE_EDGE_DISTANCE`. -/

structure OutlineSprite where
  key : Char
  height : Int
  y : Int
deriving DecidableEq, Repr

/-- `OutlineManager.update_outline_positions`. -/
def update_outline_positions (outline_group : List OutlineSprite)
    (gravity_mode : Bool) : List OutlineSprite :=
  outline_group.map fun o =>
    if gravity_mode then { o with y := HIT_ZONE_EDGE_DISTANCE - o.height }
    else { o with y := WINDOW_HEIGHT - HIT_ZONE_EDGE_DISTANCE }

inductive Difficulty where
  | easy
  | medium
  | hard
deriving DecidableEq, Repr

/-- The gravity-relevant part of `Game` state.  `countdown_duration` is the
constant 5000 ms in the source. -/
structure GameState where
  difficulty : Difficulty
  gravity_mode : Bool
  show_countdown : Bool
  countdown_start : ℚ
  next_gravity_switch : ℚ
  outline_group : List OutlineSprite

/-- `Game.countdown_duration` (milliseconds). -/
def countdown_duration : ℚ := 5000

/-- `Game.schedule_next_gravity_switch`: `dur` is the
`random.uniform(15.0, 30.0)` draw in seconds. -/
def schedule_next_gravity_switch (s : GameState) (current_time dur : ℚ) :
    GameState :=
  { s with next_gravity_switch := current_time + dur * 1000 }

/-- `Game.check_gravity_switch`, one tick at wall-clock `current_time`. -/
def check_gravity_switch (s : GameState) (current_time dur : ℚ) : GameState :=
  if ¬ (s.difficulty = .medium ∨ s.difficulty = .hard) then s
  else if s.show_countdown then
    if current_time - s.countdown_start ≥ countdown_duration then
      let s := { s with gravity_mode := !s.gravity_mode }
      let s :=
        { s with outline_group := update_outline_positions s.outline_group s.gravity_mode }
      let s := schedule_next_gravity_switch s current_time dur
      { s with show_countdown := false }
    else s
  else if current_time ≥ s.next_gravity_switch then
    { s with show_countdown := true, countdown_start := current_time }
  else s

/-! ### Pause/resume timing (game/game.py)

`Game.pause_game` stores `pause_time = get_ticks() − start_ticks`;
`Game.resume_game` restores `start_ticks = get_ticks() − pause_time`, so the
elapsed clock (`get_ticks() − start_ticks`) is preserved.  The gravity
fields `next_gravity_switch` / `countdown_start` are raw `get_ticks()`
values and are not adjusted by either call. -/

structure TimingState where
  start_ticks : ℚ
  pause_time : ℚ
  paused : Bool
  next_gravity_switch : ℚ
  countdown_start : ℚ
deriving DecidableEq

/-- The session elapsed time `get_ticks() − start_ticks` at wall time `now`. -/
def elapsed (s : TimingState) (now : ℚ) : ℚ := now - s.start_ticks

/-- `Game.pause_game` (timing part). -/
def pause_game (s : TimingState) (now : ℚ) : TimingState :=
  if ¬ s.paused then { s with paused := true, pause_time := now - s.start_ticks }
  else s

/-- `Game.resume_game` (timing part). -/
def resume_game (s : TimingState) (now : ℚ) : TimingState :=
  if s.paused then { s with paused := false, start_ticks := now - s.pause_time }
  else s

/-! ### Concrete states used as witnesses -/

/-- A two-event spawner (timestamps 2 s and 3 s, lane `d` at 2 s), all
sprites available. -/
def spawner0 : ArrowSpawner :=
  { spawn_queue := [2, 3]
    timestamp_key_dict := fun t => if t = 2 then ['d'] else []
    spawning_allowed := true
    has_sprite := fun _ => true }

/-- A medium-difficulty game in normal mode with an active countdown that
started at tick 0 and one outline sprite. -/
def game0 : GameState :=
  { difficulty := .medium
    gravity_mode := false
    show_countdown := true
    countdown_start := 0
    next_gravity_switch := 0
    outline_group := [{ key := 'd', height := 100, y := 750 }] }

/-- An unpaused timing state: session started at tick 0 with a gravity
switch scheduled at tick 20000. -/
def timing0 : TimingState :=
  { start_ticks := 0
    pause_time := 0
    paused := false
    next_gravity_switch := 20000
    countdown_start := 0 }

/-! ## Helper lemmas -/

/-- With both overlap gates satisfied, `classify_arrow` is the plain
centre-distance window chain (the `is_within_outline` conjunct of the
Late/Early window is implied by a positive vertical overlap). -/
theorem classify_arrow_of_overlap (hitbox rect : Rect)
    (hhor : hitbox.right ≥ rect.left ∧ hitbox.left ≤ rect.right)
    (hver : 0 < min hitbox.bottom rect.bottom - max hitbox.top rect.top) :
    classify_arrow hitbox rect =
      if |hitbox.centery - rect.centery| ≤ HIT_MARGIN_PERFECT then
        (.Perfect, SCORE_PERFECT)
      else if |hitbox.centery - rect.centery| ≤ HIT_MARGIN_GOOD then
        (.Good, SCORE_GOOD)
      else if |hitbox.centery - rect.centery| ≤ HIT_MARGIN_LATE then
        (if hitbox.centery > rect.centery then .Late else .Early, SCORE_LATE)
      else (.Miss, SCORE_MISS) := by
  have hw : hitbox.bottom ≥ rect.top ∧ hitbox.top ≤ rect.bottom := by
    constructor <;> omega
  rw [classify_arrow, if_neg (not_not_intro hhor), if_neg (by omega)]
  by_cases h1 : |hitbox.centery - rect.centery| ≤ HIT_MARGIN_PERFECT
  · rw [if_pos h1, if_pos h1]
  · rw [if_neg h1, if_neg h1]
    by_cases h2 : |hitbox.centery - rect.centery| ≤ HIT_MARGIN_GOOD
    · rw [if_pos h2, if_pos h2]
    · rw [if_neg h2, if_neg h2]
      by_cases h3 : |hitbox.centery - rect.centery| ≤ HIT_MARGIN_LATE
      · rw [if_pos ⟨hw, h3⟩, if_pos h3]
      · rw [if_neg (by tauto), if_neg h3]

/-- `check_hit_core` ends in exactly one of the two reporting calls:
`_handle_miss` with judgment Miss and the arrow group untouched, or
`_handle_hit` with a non-Miss judgment. -/
theorem check_hit_core_cases (d : HitDetector) (key : Char)
    (arrows : List Note) (outlines : List Outline) :
    check_hit_core d key arrows outlines = (handle_miss d, arrows, some .Miss) ∨
    ∃ ht base a, ht ≠ HitType.Miss ∧
      check_hit_core d key arrows outlines =
        ((handle_hit d ht base arrows a).1,
         (handle_hit d ht base arrows a).2, some ht) := by
  unfold check_hit_core
  split
  · exact Or.inl rfl
  · split
    · exact Or.inl rfl
    · split
      · exact Or.inl rfl
      · rename_i ht base hne heq
        exact Or.inr ⟨_, _, _, hne, rfl⟩

theorem press_update_key (d : HitDetector) (key : Char) (t : ℚ) :
    (press_update d key t).last_key_press_time key = some t := by
  simp [press_update]

theorem check_hit_core_last_key (d : HitDetector) (key : Char)
    (arrows : List Note) (outlines : List Outline) :
    (check_hit_core d key arrows outlines).1.last_key_press_time =
      d.last_key_press_time := by
  rcases check_hit_core_cases d key arrows outlines with h | ⟨ht, b, a, _, h⟩ <;>
    rw [h] <;> rfl

/-- Every non-dropped press emits exactly one judgment. -/
theorem check_hit_core_isSome (d : HitDetector) (key : Char)
    (arrows : List Note) (outlines : List Outline) :
    (check_hit_core d key arrows outlines).2.2.isSome = true := by
  rcases check_hit_core_cases d key arrows outlines with h | ⟨ht, b, a, _, h⟩ <;>
    rw [h] <;> rfl

theorem on_cooldown_of_some (d : HitDetector) (key : Char) (t0 now : ℚ)
    (h : d.last_key_press_time key = some t0) :
    on_cooldown d key now = decide (now - t0 < key_cooldown) := by
  unfold on_cooldown
  rw [h]

theorem check_hit_dropped (d : HitDetector) (key : Char) (arrows : List Note)
    (outlines : List Outline) (t : ℚ) (h : on_cooldown d key t = true) :
    check_hit d key arrows outlines t = (d, arrows, none) := by
  unfold check_hit
  rw [if_pos h]

theorem check_hit_accepted (d : HitDetector) (key : Char) (arrows : List Note)
    (outlines : List Outline) (t : ℚ) (h : on_cooldown d key t = false) :
    check_hit d key arrows outlines t =
      check_hit_core (press_update d key t) key arrows outlines := by
  unfold check_hit
  rw [if_neg (by simp [h])]

/-- A `spawn_arrow` call whose head event is outside `[now, now + window]`
(too early or overdue) changes nothing. -/
theorem spawn_arrow_skip (s : ArrowSpawner) (now : ℚ) (g : List Char)
    (T : ℚ) (rest : List ℚ) (hq : s.spawn_queue = T :: rest)
    (h : ¬ (0 ≤ T - now ∧ T - now ≤ SPAWN_WINDOW)) :
    spawn_arrow s now g = (s, g) := by
  unfold spawn_arrow
  rw [hq]
  split
  · rfl
  · dsimp only
    rw [if_neg h]

/-- A `spawn_arrow` call whose head event is inside the window pops that
event and appends one note per sprite-backed lane of its lane-set. -/
theorem spawn_arrow_pop (s : ArrowSpawner) (now : ℚ) (g : List Char)
    (T : ℚ) (rest : List ℚ) (hq : s.spawn_queue = T :: rest)
    (hallow : s.spawning_allowed = true)
    (h : 0 ≤ T - now ∧ T - now ≤ SPAWN_WINDOW) :
    spawn_arrow s now g =
      ({ s with spawn_queue := rest },
        g ++ (s.timestamp_key_dict T).filter s.has_sprite) := by
  unfold spawn_arrow
  rw [hq, if_neg (by simp [hallow])]
  dsimp only
  rw [if_pos h]

/-- One `spawn_arrow` call either leaves the queue alone or pops exactly
its head. -/
theorem spawn_arrow_queue (s : ArrowSpawner) (now : ℚ) (g : List Char) :
    (spawn_arrow s now g).1.spawn_queue = s.spawn_queue ∨
    (spawn_arrow s now g).1.spawn_queue = s.spawn_queue.drop 1 := by
  unfold spawn_arrow
  split
  · exact Or.inl rfl
  · split
    · exact Or.inl rfl
    · rename_i item rest heq
      split
      · right
        rw [heq]
        rfl
      · exact Or.inl rfl

/-- While every tick time keeps the head event outside the window, running
the spawner consumes nothing and spawns nothing. -/
theorem run_spawner_frozen (T : ℚ) (rest : List ℚ) (ts : List ℚ) :
    ∀ (s : ArrowSpawner) (g : List Char), s.spawn_queue = T :: rest →
      (∀ t ∈ ts, ¬ (0 ≤ T - t ∧ T - t ≤ SPAWN_WINDOW)) →
      run_spawner ts s g = (s, g) := by
  induction ts with
  | nil =>
    intro s g _ _
    rfl
  | cons t ts ih =>
    intro s g hq h
    have hstep := spawn_arrow_skip s t g T rest hq (h t (by simp))
    unfold run_spawner
    rw [hstep]
    exact ih s g hq fun u hu => h u (by simp [hu])

/-- Over any run, the queue left behind is a tail of the starting queue:
events are consumed only from the head, in order, each at most once. -/
theorem run_spawner_queue_drop (ts : List ℚ) :
    ∀ (s : ArrowSpawner) (g : List Char),
      ∃ k, (run_spawner ts s g).1.spawn_queue = s.spawn_queue.drop k := by
  induction ts with
  | nil =>
    intro s g
    exact ⟨0, rfl⟩
  | cons t ts ih =>
    intro s g
    obtain ⟨k, hk⟩ := ih (spawn_arrow s t g).1 (spawn_arrow s t g).2
    rcases spawn_arrow_queue s t g with h1 | h1
    · exact ⟨k, by unfold run_spawner; rw [hk, h1]⟩
    · refine ⟨k + 1, ?_⟩
      unfold run_spawner
      rw [hk, h1, List.drop_drop, Nat.add_comm]

/-- `check_gravity_switch`, flip branch: active countdown whose 5000 ms
have elapsed. -/
theorem cgs_flip (s : GameState) (now dur : ℚ)
    (hd : s.difficulty = .medium ∨ s.difficulty = .hard)
    (h1 : s.show_countdown = true)
    (h2 : now - s.countdown_start ≥ countdown_duration) :
    check_gravity_switch s now dur =
      { s with
        gravity_mode := !s.gravity_mode
        outline_group :=
          update_outline_positions s.outline_group (!s.gravity_mode)
        next_gravity_switch := now + dur * 1000
        show_countdown := false } := by
  unfold check_gravity_switch
  rw [if_neg (not_not_intro hd), if_pos h1, if_pos h2]
  rfl

/-- `check_gravity_switch`, waiting branch: active countdown, less than
5000 ms elapsed — no change at all. -/
theorem cgs_wait (s : GameState) (now dur : ℚ)
    (hd : s.difficulty = .medium ∨ s.difficulty = .hard)
    (h1 : s.show_countdown = true)
    (h2 : ¬ now - s.countdown_start ≥ countdown_duration) :
    check_gravity_switch s now dur = s := by
  unfold check_gravity_switch
  rw [if_neg (not_not_intro hd), if_pos h1, if_neg h2]

/-- `check_gravity_switch`, countdown-begin branch: no active countdown and
the scheduled deadline reached. -/
theorem cgs_begin (s : GameState) (now dur : ℚ)
    (hd : s.difficulty = .medium ∨ s.difficulty = .hard)
    (h1 : s.show_countdown = false)
    (h2 : now ≥ s.next_gravity_switch) :
    check_gravity_switch s now dur =
      { s with show_countdown := true, countdown_start := now } := by
  unfold check_gravity_switch
  rw [if_neg (not_not_intro hd), if_neg (by simp [h1]), if_pos h2]

/-- `check_gravity_switch`, idle branch: no active countdown, deadline not
yet reached — no change at all. -/
theorem cgs_idle (s : GameState) (now dur : ℚ)
    (hd : s.difficulty = .medium ∨ s.difficulty = .hard)
    (h1 : s.show_countdown = false)
    (h2 : ¬ now ≥ s.next_gravity_switch) :
    check_gravity_switch s now dur = s := by
  unfold check_gravity_switch
  rw [if_neg (not_not_intro hd), if_neg (by simp [h1]), if_neg h2]

/-! ## Claim theorems -/

/-- C1.  With the horizontal- and vertical-overlap gates satisfied, the
judgment of the selected candidate is determined by the vertical centre
distance `d`: `d ≤ 20` gives Perfect (base 100), `20 < d ≤ 65` gives Good
(base 50), `65 < d ≤ 100` gives Late when the candidate centre is past the
zone centre and Early otherwise (base 25), and larger `d` gives Miss; in
particular distances of exactly 20, 65, 100 and 101 (with the overlaps
satisfied) give Perfect, Good, Late/Early and Miss. -/
theorem C1_classification_boundaries (hitbox rect : Rect)
    (hhor : hitbox.right ≥ rect.left ∧ hitbox.left ≤ rect.right)
    (hver : 0 < min hitbox.bottom rect.bottom - max hitbox.top rect.top) :
    (|hitbox.centery - rect.centery| ≤ 20 →
      classify_arrow hitbox rect = (.Perfect, 100)) ∧
    (20 < |hitbox.centery - rect.centery| →
      |hitbox.centery - rect.centery| ≤ 65 →
      classify_arrow hitbox rect = (.Good, 50)) ∧
    (65 < |hitbox.centery - rect.centery| →
      |hitbox.centery - rect.centery| ≤ 100 →
      hitbox.bottom ≥ rect.top → hitbox.top ≤ rect.bottom →
      classify_arrow hitbox rect =
        (if hitbox.centery > rect.centery then .Late else .Early, 25)) ∧
    (100 < |hitbox.centery - rect.centery| →
      classify_arrow hitbox rect = (.Miss, 0)) ∧
    classify_arrow ⟨0, 20, 300, 300⟩ ⟨0, 0, 300, 300⟩ = (.Perfect, 100) ∧
    classify_arrow ⟨0, 65, 300, 300⟩ ⟨0, 0, 300, 300⟩ = (.Good, 50) ∧
    classify_arrow ⟨0, 100, 300, 300⟩ ⟨0, 0, 300, 300⟩ = (.Late, 25) ∧
    classify_arrow ⟨0, -100, 300, 300⟩ ⟨0, 0, 300, 300⟩ = (.Early, 25) ∧
    classify_arrow ⟨0, 101, 300, 300⟩ ⟨0, 0, 300, 300⟩ = (.Miss, 0) := by
  have h := classify_arrow_of_overlap hitbox rect hhor hver
  simp only [HIT_MARGIN_PERFECT, HIT_MARGIN_GOOD, HIT_MARGIN_LATE,
    SCORE_PERFECT, SCORE_GOOD, SCORE_LATE, SCORE_MISS] at h
  refine ⟨?_, ?_, ?_, ?_, by decide, by decide, by decide, by decide, by decide⟩
  · intro hd
    rw [h, if_pos hd]
  · intro hd1 hd2
    rw [h, if_neg (by omega), if_pos hd2]
  · intro hd1 hd2 _ _
    rw [h, if_neg (by omega), if_neg (by omega), if_pos hd2]
  · intro hd
    rw [h, if_neg (by omega), if_neg (by omega), if_neg (by omega)]

/-- Witness for C1 at a concrete Note/HitZone pair (distance 20, both
overlap gates satisfied). -/
theorem C1_classification_boundaries_witness :
    classify_arrow ⟨0, 20, 300, 300⟩ ⟨0, 0, 300, 300⟩ = (.Perfect, 100) := by
  exact (C1_classification_boundaries ⟨0, 20, 300, 300⟩ ⟨0, 0, 300, 300⟩
    (by decide) (by decide)).1 (by decide)

set_option maxRecDepth 100000 in
/-- C2.  On a non-Miss judgment the score grows by the base score times the
multiplier of the combo value before the increment (1/2/3/4 by tier), the
combo grows by one, and `max_combo` becomes the maximum of itself and the
new combo; consequently, feeding consecutive Perfect judgments from a fresh
state, the 99th, 100th, 199th, 200th, 299th and 300th hits are worth
100×1, 100×1, 100×2, 100×2, 100×3 and 100×3 points respectively. -/
theorem C2_score_combo_multiplier (d : HitDetector) (ht : HitType)
    (base : Nat) (arrows : List Note) (a : Note) (hne : ht ≠ HitType.Miss) :
    (handle_hit d ht base arrows a).1.score =
      d.score + base * get_combo_multiplier d ∧
    (d.combo < 100 → get_combo_multiplier d = 1) ∧
    (100 ≤ d.combo → d.combo < 200 → get_combo_multiplier d = 2) ∧
    (200 ≤ d.combo → d.combo < 300 → get_combo_multiplier d = 3) ∧
    (300 ≤ d.combo → get_combo_multiplier d = 4) ∧
    (handle_hit d ht base arrows a).1.combo = d.combo + 1 ∧
    (handle_hit d ht base arrows a).1.max_combo =
      max d.max_combo (d.combo + 1) ∧
    (feed_perfects 99 HitDetector.init).score -
      (feed_perfects 98 HitDetector.init).score = 100 * 1 ∧
    (feed_perfects 100 HitDetector.init).score -
      (feed_perfects 99 HitDetector.init).score = 100 * 1 ∧
    (feed_perfects 199 HitDetector.init).score -
      (feed_perfects 198 HitDetector.init).score = 100 * 2 ∧
    (feed_perfects 200 HitDetector.init).score -
      (feed_perfects 199 HitDetector.init).score = 100 * 2 ∧
    (feed_perfects 299 HitDetector.init).score -
      (feed_perfects 298 HitDetector.init).score = 100 * 3 ∧
    (feed_perfects 300 HitDetector.init).score -
      (feed_perfects 299 HitDetector.init).score = 100 * 3 := by
  refine ⟨rfl, ?_, ?_, ?_, ?_, rfl, rfl, by decide, by decide, by decide,
    by decide, by decide, by decide⟩ <;>
  · intros
    unfold get_combo_multiplier
    split_ifs <;> omega

/-- Witness for C2: the first Perfect from a fresh state is worth
100 × 1 points and sets the combo to 1. -/
theorem C2_score_combo_multiplier_witness :
    (handle_hit HitDetector.init .Perfect 100 [] dummy_note).1.score = 100 ∧
    (handle_hit HitDetector.init .Perfect 100 [] dummy_note).1.combo = 1 := by
  have h := C2_score_combo_multiplier HitDetector.init .Perfect 100 []
    dummy_note (by decide)
  exact ⟨by rw [h.1]; decide, by rw [h.2.2.2.2.2.1]; rfl⟩

/-- C4.  Processing a Miss (no candidate in the lane, no matching outline,
a failed overlap gate, or an out-of-window distance) zeroes the combo,
increments the miss count by one, leaves the score unchanged, and removes
no note from the active group. -/
theorem C4_miss_processing (d : HitDetector) (key : Char)
    (arrows : List Note) (outlines : List Outline) (now : ℚ) :
    (handle_miss d).combo = 0 ∧
    (handle_miss d).misses = d.misses + 1 ∧
    (handle_miss d).score = d.score ∧
    ((check_hit d key arrows outlines now).2.2 = some .Miss →
      (check_hit d key arrows outlines now).2.1 = arrows ∧
      (check_hit d key arrows outlines now).1.combo = 0 ∧
      (check_hit d key arrows outlines now).1.misses = d.misses + 1 ∧
      (check_hit d key arrows outlines now).1.score = d.score) := by
  refine ⟨rfl, rfl, by simp [handle_miss, SCORE_MISS], ?_⟩
  by_cases hcd : on_cooldown d key now = true
  · rw [check_hit_dropped d key arrows outlines now hcd]
    intro h
    exact absurd h (by simp)
  · rw [check_hit_accepted d key arrows outlines now (by simpa using hcd)]
    rcases check_hit_core_cases (press_update d key now) key arrows outlines
      with h | ⟨ht, b, a, hne, h⟩
    · rw [h]
      intro _
      exact ⟨rfl, rfl, rfl, by simp [handle_miss, press_update, SCORE_MISS]⟩
    · rw [h]
      intro hj
      exact absurd (Option.some.inj hj) hne

/-- Witness for C4: a press on an empty lane is judged Miss, counts one
miss, and removes nothing. -/
theorem C4_miss_processing_witness :
    (check_hit HitDetector.init 'd' [] [] 0).2.1 = ([] : List Note) ∧
    (check_hit HitDetector.init 'd' [] [] 0).1.misses =
      HitDetector.init.misses + 1 := by
  have h := (C4_miss_processing HitDetector.init 'd' [] [] 0).2.2.2 rfl
  exact ⟨h.1, h.2.2.1⟩

/-- C5.  Per-lane debounce: an accepted press emits exactly one judgment;
a second press on the same lane strictly less than 50 ms after the last
accepted press is dropped with no judgment and no state change, while a
second press 50 ms or more after the first is accepted and emits its own
judgment. -/
theorem C5_debounce (d : HitDetector) (key : Char) (arrows : List Note)
    (outlines : List Outline) (t1 t2 : ℚ)
    (hacc : on_cooldown d key t1 = false) :
    (check_hit d key arrows outlines t1).2.2.isSome = true ∧
    (t2 - t1 < key_cooldown →
      check_hit (check_hit d key arrows outlines t1).1 key
          (check_hit d key arrows outlines t1).2.1 outlines t2 =
        ((check_hit d key arrows outlines t1).1,
          (check_hit d key arrows outlines t1).2.1, none)) ∧
    (key_cooldown ≤ t2 - t1 →
      (check_hit (check_hit d key arrows outlines t1).1 key
          (check_hit d key arrows outlines t1).2.1 outlines t2).2.2.isSome =
        true) := by
  have h1 := check_hit_accepted d key arrows outlines t1 hacc
  have hkey : (check_hit d key arrows outlines t1).1.last_key_press_time key =
      some t1 := by
    rw [h1, check_hit_core_last_key, press_update_key]
  have hcd : ∀ t, on_cooldown (check_hit d key arrows outlines t1).1 key t =
      decide (t - t1 < key_cooldown) :=
    fun t => on_cooldown_of_some _ _ _ _ hkey
  refine ⟨by rw [h1, check_hit_core_isSome], ?_, ?_⟩
  · intro hlt
    exact check_hit_dropped _ _ _ _ _ (by rw [hcd t2]; exact decide_eq_true hlt)
  · intro hge
    rw [check_hit_accepted _ _ _ _ _
      (by rw [hcd t2]; exact decide_eq_false (not_lt.mpr hge))]
    exact check_hit_core_isSome _ _ _ _

/-- Witness for C5 at concrete times 0 and 0.04 (< 50 ms): the first press
is judged, the repeat is dropped. -/
theorem C5_debounce_witness :
    (check_hit HitDetector.init 'd' [] [] 0).2.2.isSome = true ∧
    check_hit (check_hit HitDetector.init 'd' [] [] 0).1 'd'
        (check_hit HitDetector.init 'd' [] [] 0).2.1 [] 0.04 =
      ((check_hit HitDetector.init 'd' [] [] 0).1,
        (check_hit HitDetector.init 'd' [] [] 0).2.1, none) := by
  have h := C5_debounce HitDetector.init 'd' [] [] 0 0.04 rfl
  exact ⟨h.1, h.2.1 (by norm_num [key_cooldown])⟩

/-- C3.  Spawn windowing: an event with head timestamp `T` is not spawned
while `T − now > SPAWN_WINDOW`; when a tick lands inside
`[T − SPAWN_WINDOW, T]` the event is popped and one note per sprite-backed
lane of its lane-set is spawned; a run whose ticks all precede the window
changes nothing; and over any run the queue is consumed only from the head,
in order, so no event is ever spawned twice. -/
theorem C3_spawn_windowing (s : ArrowSpawner) (T : ℚ) (rest : List ℚ)
    (hq : s.spawn_queue = T :: rest) :
    (∀ now g, SPAWN_WINDOW < T - now → spawn_arrow s now g = (s, g)) ∧
    (∀ now g, s.spawning_allowed = true → 0 ≤ T - now →
      T - now ≤ SPAWN_WINDOW →
      spawn_arrow s now g =
        ({ s with spawn_queue := rest },
          g ++ (s.timestamp_key_dict T).filter s.has_sprite)) ∧
    (∀ keys : List Char, (∀ k ∈ keys, s.has_sprite k = true) →
      keys.filter s.has_sprite = keys) ∧
    (∀ ts g, (∀ t ∈ ts, SPAWN_WINDOW < T - t) → run_spawner ts s g = (s, g)) ∧
    (∀ ts (s' : ArrowSpawner) g, ∃ k,
      (run_spawner ts s' g).1.spawn_queue = s'.spawn_queue.drop k) := by
  refine ⟨?_, ?_, ?_, ?_, ?_⟩
  · intro now g h
    refine spawn_arrow_skip s now g T rest hq fun hc => ?_
    linarith [hc.2]
  · intro now g ha h0 h1
    exact spawn_arrow_pop s now g T rest hq ha ⟨h0, h1⟩
  · intro keys h
    exact List.filter_eq_self.mpr h
  · intro ts g h
    refine run_spawner_frozen T rest ts s g hq fun t ht hc => ?_
    have := h t ht
    linarith [hc.2]
  · intro ts s' g
    exact run_spawner_queue_drop ts s' g

/-- Witness for C3: with head timestamp 2 s, a tick at 0 s (too early)
spawns nothing; the tick at 1 s (inside the 1.55 s window) pops the event
and spawns its lane. -/
theorem C3_spawn_windowing_witness :
    spawn_arrow spawner0 0 [] = (spawner0, []) ∧
    spawn_arrow spawner0 1 [] =
      ({ spawner0 with spawn_queue := [3] },
        [] ++ (spawner0.timestamp_key_dict 2).filter spawner0.has_sprite) := by
  have h := C3_spawn_windowing spawner0 2 [3] rfl
  exact ⟨h.1 0 [] (by norm_num [SPAWN_WINDOW]),
    h.2.1 1 [] rfl (by norm_num) (by norm_num [SPAWN_WINDOW])⟩

/-- C10.  An overdue head event (timestamp strictly less than the current
elapsed time) is never popped: the spawn step changes nothing, and as long
as every later tick time is also past the timestamp, neither the overdue
event nor any event behind it in the queue is ever spawned. -/
theorem C10_overdue_head_blocks (s : ArrowSpawner) (T : ℚ) (rest : List ℚ)
    (hq : s.spawn_queue = T :: rest) :
    (∀ now g, T < now → spawn_arrow s now g = (s, g)) ∧
    (∀ ts g, (∀ t ∈ ts, T < t) → run_spawner ts s g = (s, g)) := by
  constructor
  · intro now g h
    refine spawn_arrow_skip s now g T rest hq fun hc => ?_
    linarith [hc.1]
  · intro ts g h
    refine run_spawner_frozen T rest ts s g hq fun t ht hc => ?_
    have := h t ht
    linarith [hc.1]

/-- Witness for C10: with head timestamp 2 s, ticks at 5 s and 6 s leave
the spawner and the arrow group completely unchanged. -/
theorem C10_overdue_head_blocks_witness :
    spawn_arrow spawner0 5 [] = (spawner0, []) ∧
    run_spawner [5, 6] spawner0 [] = (spawner0, []) := by
  have h := C10_overdue_head_blocks spawner0 2 [3] rfl
  refine ⟨h.1 5 [] (by norm_num), h.2 [5, 6] [] ?_⟩
  intro t ht
  simp only [List.mem_cons, List.not_mem_nil, or_false] at ht
  rcases ht with rfl | rfl <;> norm_num

/-- C7 counterexample.  The claim says the weights of every difficulty
tier sum to exactly 1, but the easy-tier weights
`[0.2, 0.2, 0.2, 0.2, 0.08, 0.08, 0.01, 0.01]` sum to 0.98. -/
theorem C7_counterexample : ¬ easy_weights.sum = 1 := by
  norm_num [easy_weights, List.sum_cons, List.sum_nil]

/-- C7 (amended).  The medium- and hard-tier weights sum to exactly 1;
the easy-tier weights sum to 49/50 = 0.98. -/
theorem C7_weight_sums :
    easy_weights.sum = 49 / 50 ∧
    medium_weights.sum = 1 ∧
    hard_weights.sum = 1 := by
  refine ⟨?_, ?_, ?_⟩ <;>
    norm_num [easy_weights, medium_weights, hard_weights, List.sum_cons,
      List.sum_nil]

/-- C6.  The hard-mode shuffle applied at load time permutes the per-row
lane assignments — the multiset of key entries over all rows is preserved —
while the sequence of timestamps is identical before and after. -/
theorem C6_hard_shuffle (rows : List CsvRow)
    (σ : Equiv.Perm (Fin rows.length)) :
    (hard_shuffle rows σ).map CsvRow.timestamp = rows.map CsvRow.timestamp ∧
    List.Perm ((hard_shuffle rows σ).map CsvRow.key)
      (rows.map CsvRow.key) := by
  constructor
  · rw [hard_shuffle, List.map_ofFn]
    exact List.ofFn_get_eq_map rows CsvRow.timestamp
  · have hp := Equiv.Perm.ofFn_comp_perm σ fun i => (rows.get i).key
    rw [List.ofFn_get_eq_map rows CsvRow.key] at hp
    rw [hard_shuffle, List.map_ofFn]
    exact hp

/-- C8.  In medium/hard difficulty the travel direction flips only at a
countdown boundary: the flip happens exactly when an active countdown has
run for `countdown_duration` (5000 ms) and never earlier; at the flip the
hit-zone outlines are repositioned for the new direction, the countdown is
cleared and a fresh deadline `now + dur·1000` with `dur` drawn from
[15 s, 30 s] is scheduled; and a countdown begins exactly when the current
time reaches the scheduled deadline. -/
theorem C8_gravity_flip (s : GameState) (now dur : ℚ)
    (hdiff : s.difficulty = .medium ∨ s.difficulty = .hard)
    (hdur1 : 15 ≤ dur) (hdur2 : dur ≤ 30) :
    ((check_gravity_switch s now dur).gravity_mode ≠ s.gravity_mode ↔
      s.show_countdown = true ∧ countdown_duration ≤ now - s.countdown_start) ∧
    (s.show_countdown = true → now - s.countdown_start < countdown_duration →
      check_gravity_switch s now dur = s) ∧
    (s.show_countdown = true → countdown_duration ≤ now - s.countdown_start →
      (check_gravity_switch s now dur).gravity_mode = !s.gravity_mode ∧
      (check_gravity_switch s now dur).outline_group =
        update_outline_positions s.outline_group (!s.gravity_mode) ∧
      (check_gravity_switch s now dur).show_countdown = false ∧
      (check_gravity_switch s now dur).next_gravity_switch = now + dur * 1000 ∧
      now + 15000 ≤ (check_gravity_switch s now dur).next_gravity_switch ∧
      (check_gravity_switch s now dur).next_gravity_switch ≤ now + 30000) ∧
    (s.show_countdown = false →
      ((check_gravity_switch s now dur).show_countdown = true ↔
        s.next_gravity_switch ≤ now) ∧
      (s.next_gravity_switch ≤ now →
        (check_gravity_switch s now dur).countdown_start = now) ∧
      (check_gravity_switch s now dur).gravity_mode = s.gravity_mode) := by
  refine ⟨⟨?_, ?_⟩, ?_, ?_, ?_⟩
  · intro hchanged
    by_cases h1 : s.show_countdown = true
    · by_cases h2 : now - s.countdown_start ≥ countdown_duration
      · exact ⟨h1, h2⟩
      · exact absurd
          (congrArg GameState.gravity_mode (cgs_wait s now dur hdiff h1 h2))
          hchanged
    · have h1' : s.show_countdown = false := by simpa using h1
      by_cases h2 : now ≥ s.next_gravity_switch
      · rw [cgs_begin s now dur hdiff h1' h2] at hchanged
        exact absurd rfl hchanged
      · rw [cgs_idle s now dur hdiff h1' h2] at hchanged
        exact absurd rfl hchanged
  · rintro ⟨h1, h2⟩
    rw [cgs_flip s now dur hdiff h1 h2]
    simp
  · intro h1 h2
    exact cgs_wait s now dur hdiff h1 (not_le.mpr h2)
  · intro h1 h2
    rw [cgs_flip s now dur hdiff h1 h2]
    exact ⟨rfl, rfl, rfl, rfl, by simp; linarith, by simp; linarith⟩
  · intro h1
    by_cases h2 : now ≥ s.next_gravity_switch
    · rw [cgs_begin s now dur hdiff h1 h2]
      exact ⟨iff_of_true rfl h2, fun _ => rfl, rfl⟩
    · rw [cgs_idle s now dur hdiff h1 h2]
      exact ⟨iff_of_false (by simp [h1]) h2, fun hc => absurd hc h2, rfl⟩

/-- Witness for C8 on a concrete medium-difficulty state: the countdown
that started at tick 0 flips gravity at tick 5000 with a draw of 20 s. -/
theorem C8_gravity_flip_witness :
    (check_gravity_switch game0 5000 20).gravity_mode = !game0.gravity_mode ∧
    (check_gravity_switch game0 5000 20).show_countdown = false ∧
    (check_gravity_switch game0 5000 20).next_gravity_switch =
      5000 + 20 * 1000 := by
  have h := (C8_gravity_flip game0 5000 20 (Or.inl rfl) (by norm_num)
    (by norm_num)).2.2.1 rfl (by norm_num [countdown_duration, game0])
  exact ⟨h.1, h.2.2.1, h.2.2.2.1⟩

/-- C9 counterexample.  Pausing at tick 10000 and resuming at tick 15000
preserves the session elapsed time, but the mode controller's next-switch
deadline is a raw wall-clock value: expressed in elapsed-time coordinates
(`next_gravity_switch − start_ticks`) it is not preserved across the
pause/resume cycle, contradicting the claim that all core timing state
(including the countdown and next-switch deadline) resumes with the same
relative offsets. -/
theorem C9_counterexample :
    elapsed (resume_game (pause_game timing0 10000) 15000) 15000 =
      elapsed timing0 10000 ∧
    (resume_game (pause_game timing0 10000) 15000).next_gravity_switch -
        (resume_game (pause_game timing0 10000) 15000).start_ticks ≠
      timing0.next_gravity_switch - timing0.start_ticks := by
  constructor
  · norm_num [timing0, pause_game, resume_game, elapsed]
  · norm_num [timing0, pause_game, resume_game]

/-- C9 (amended).  Across a pause/resume cycle the session elapsed time —
and with it the spawn scheduler's position relative to upcoming event
timestamps — is preserved exactly, but the mode controller's
`countdown_start` and `next_gravity_switch` are wall-clock values left
unadjusted, so in elapsed-time coordinates the deadline moves earlier by
exactly the pause duration. -/
theorem C9_pause_resume (s : TimingState) (wp wr : ℚ)
    (h : s.paused = false) :
    elapsed (resume_game (pause_game s wp) wr) wr = elapsed s wp ∧
    (∀ T : ℚ, T - elapsed (resume_game (pause_game s wp) wr) wr =
      T - elapsed s wp) ∧
    (resume_game (pause_game s wp) wr).next_gravity_switch =
      s.next_gravity_switch ∧
    (resume_game (pause_game s wp) wr).countdown_start = s.countdown_start ∧
    (resume_game (pause_game s wp) wr).next_gravity_switch -
        (resume_game (pause_game s wp) wr).start_ticks =
      (s.next_gravity_switch - s.start_ticks) - (wr - wp) := by
  have hp : pause_game s wp =
      { s with paused := true, pause_time := wp - s.start_ticks } := by
    unfold pause_game
    rw [if_pos (by simp [h])]
  have hr : resume_game (pause_game s wp) wr =
      { s with
        paused := false
        pause_time := wp - s.start_ticks
        start_ticks := wr - (wp - s.start_ticks) } := by
    rw [hp]
    unfold resume_game
    rw [if_pos rfl]
  rw [hr]
  refine ⟨?_, ?_, rfl, rfl, ?_⟩
  · unfold elapsed
    ring
  · intro T
    unfold elapsed
    ring
  · show s.next_gravity_switch - (wr - (wp - s.start_ticks)) = _
    ring

/-- Witness for C9 on the concrete unpaused state: elapsed time preserved,
deadline shifted earlier by the 5000-tick pause. -/
theorem C9_pause_resume_witness :
    elapsed (resume_game (pause_game timing0 10000) 15000) 15000 =
      elapsed timing0 10000 ∧
    (resume_game (pause_game timing0 10000) 15000).next_gravity_switch -
        (resume_game (pause_game timing0 10000) 15000).start_ticks =
      (timing0.next_gravity_switch - timing0.start_ticks) -
        (15000 - 10000) := by
  have h := C9_pause_resume timing0 10000 15000 rfl
  exact ⟨h.1, h.2.2.2.2⟩

end RhythmGame
